import Mathlib

/-!
Verification of the share/export fallback pipeline and supporting UI logic of
the Flyer-App frontend.  The definitions below are a shallow embedding of the
JavaScript source, chiefly `ShareModal.handleWhatsAppShare` and `handleDownload`
in `src/pages/CompanyDashboard.jsx`, `MonthNavigator.jsx`, and
`ReviewBoxTab.handleAddCustomer`.  External effects (HTTP fetches, the canvas,
the Web Share API) are modelled by an environment record describing what each
external interaction would return; the handler itself is translated as a pure
function from that environment to an outcome plus a trace of observable events.
-/

/-- The ECMAScript whitespace class: WhiteSpace ∪ LineTerminator, i.e. the set
matched by regex `\s` and stripped by `String.prototype.trim`. -/
def isJsWhitespace (c : Char) : Bool :=
  let n := c.toNat
  n == 0x9 || n == 0xA || n == 0xB || n == 0xC || n == 0xD || n == 0x20 ||
  n == 0xA0 || n == 0x1680 || (Nat.ble 0x2000 n && Nat.ble n 0x200A) ||
  n == 0x2028 || n == 0x2029 || n == 0x202F || n == 0x205F || n == 0x3000 ||
  n == 0xFEFF

/-- JS `s.trim()`: strip `\s`-class characters from both ends. -/
def jsTrim (s : String) : String :=
  (((s.data.dropWhile isJsWhitespace).reverse.dropWhile isJsWhitespace).reverse).asString

/-- Whether a character matches the regex class `[a-z0-9\s]` under the `i`
flag, as used in `title.replace(/[^a-z0-9\s]/gi, '_')`
(CompanyDashboard.jsx line 110). -/
def matchesTitleClass (c : Char) : Bool :=
  (decide ('a' ≤ c) && decide (c ≤ 'z')) ||
  (decide ('A' ≤ c) && decide (c ≤ 'Z')) ||
  (decide ('0' ≤ c) && decide (c ≤ '9')) ||
  isJsWhitespace c

/-- One character of the title sanitizer: characters outside `[a-z0-9\s]`
(case-insensitive) become `_`. -/
def sanitizeChar (c : Char) : Char :=
  if matchesTitleClass c then c else '_'

/-- `title.replace(/[^a-z0-9\s]/gi, '_')` (CompanyDashboard.jsx line 110). -/
def sanitizeTitle (s : String) : String :=
  (s.data.map sanitizeChar).asString

/-- Auxiliary recursion for `jsSplit`, accumulating the current segment in
reverse. -/
def jsSplitAux (sep : Char) : List Char → List Char → List (List Char)
  | [], acc => [acc.reverse]
  | c :: cs, acc =>
    if c = sep then acc.reverse :: jsSplitAux sep cs []
    else jsSplitAux sep cs (c :: acc)

/-- JS `s.split(sep)` for a single-character separator.  Like the JS original
it always returns at least one element, and `"".split(sep)` is `[""]`. -/
def jsSplit (s : String) (sep : Char) : List String :=
  (jsSplitAux sep s.data []).map List.asString

/-- `arr[0]` of a JS split result (never out of range: split is non-empty). -/
def jsFirst (l : List String) : String := l.headD ""

/-- `arr.pop()` of a JS split result (never `undefined`: split is non-empty). -/
def jsLast (l : List String) : String := l.getLastD ""

/-- JS `s.toLowerCase()` restricted to ASCII, which is all the source applies
it to (file extensions). -/
def jsToLower (s : String) : String :=
  (s.data.map Char.toLower).asString

/-- JS `a || b` on strings: the empty string is falsy. -/
def jsOr (a b : String) : String := if a = "" then b else a

/-- Whether the character list `l` starts with `p`. -/
def listStartsWith : List Char → List Char → Bool
  | _, [] => true
  | [], _ :: _ => false
  | a :: as, b :: bs => a == b && listStartsWith as bs

/-- Whether `sub` occurs somewhere in the character list. -/
def listIncludes (sub : List Char) : List Char → Bool
  | [] => listStartsWith [] sub
  | c :: cs => listStartsWith (c :: cs) sub || listIncludes sub cs

/-- JS `s.includes(sub)`. -/
def jsIncludes (s sub : String) : Bool := listIncludes sub.data s.data

/-! ## Data model of one share attempt -/

/-- The three byte-acquisition strategies of the fallback chain
(CompanyDashboard.jsx lines 17-97): the server-mediated download endpoint,
the direct cross-origin fetch (mode cors, credentials omit), and the canvas
re-encode (JPEG, quality 0.95). -/
inductive Stage where
  | endpoint
  | fetch
  | canvas
deriving DecidableEq, Repr

/-- What one acquisition strategy would do if attempted: complete with a blob
of the given byte size, or throw with the given message. -/
inductive StageResult where
  | ok (blobSize : Nat)
  | err (msg : String)
deriving DecidableEq, Repr

/-- Whether a `StageResult` is a completion (no exception thrown). -/
def StageResult.isOk : StageResult → Bool
  | StageResult.ok _ => true
  | StageResult.err _ => false

/-- What `navigator.share(...)` would do: resolve, or reject with an error of
the given name. -/
inductive ShareCallResult where
  | ok
  | err (name : String)
deriving DecidableEq, Repr

/-- The fields of a flyer used by the share pipeline.  `imageUrl` and
`imagePath` are JS strings where the empty string plays the role of a missing
(falsy) value, matching `flyer.imageUrl || flyer.imagePath || ''`. -/
structure Flyer where
  title : String
  imageUrl : String
  imagePath : String
deriving DecidableEq, Repr

/-- The environment of one share attempt: the outcome each external
interaction would have.  Each strategy appears once, so an entry being
consulted at most once models the absence of retries. -/
structure ShareEnv where
  downloadEndpoint : StageResult
  directFetch : StageResult
  canvasReencode : StageResult
  canShareFiles : Bool
  shareCall : ShareCallResult
deriving DecidableEq, Repr

/-- The terminal outcome of a share attempt (spec section 3). -/
inductive ShareOutcome where
  | Shared
  | Downloaded
  | Cancelled
  | Failed (msg : String)
deriving DecidableEq, Repr

/-- Observable events emitted during a share attempt, in order. -/
inductive Event where
  | tryStage (s : Stage)
  | invokeShare
  | createObjectURL
  | clickDownload
  | revokeObjectURL
  | alertInstructions
  | alertError
deriving DecidableEq, Repr

/-- Whether an event is an alert shown to the user. -/
def isAlertEvent : Event → Bool
  | Event.alertInstructions => true
  | Event.alertError => true
  | _ => false

/-- Number of alerts in an event trace. -/
def alertCount (evs : List Event) : Nat := evs.countP isAlertEvent

/-- Result of running the handler: terminal outcome, emitted events, and the
computed filename when the attempt got as far as computing one. -/
structure ShareResult where
  outcome : ShareOutcome
  events : List Event
  fileName : Option String
deriving DecidableEq, Repr

/-! ## The acquisition chain -/

/-- The byte-acquisition chain of `ShareModal.handleWhatsAppShare`
(CompanyDashboard.jsx lines 17-97; `handleNativeShare` lines 879-956 is
identical in structure): try the download endpoint; on an exception compute
`flyer.imageUrl || flyer.imagePath` and throw if it is missing; otherwise try
the direct fetch; on an exception try the canvas re-encode, whose rejection
propagates.  Returns the blob size or the propagated error message, plus the
stages that were attempted, in order. -/
def acquireBlob (env : ShareEnv) (flyer : Flyer) : Except String Nat × List Event :=
  match env.downloadEndpoint with
  | StageResult.ok n => (Except.ok n, [Event.tryStage Stage.endpoint])
  | StageResult.err _ =>
    if jsOr flyer.imageUrl flyer.imagePath = "" then
      (Except.error "No image URL available", [Event.tryStage Stage.endpoint])
    else
      match env.directFetch with
      | StageResult.ok n =>
        (Except.ok n, [Event.tryStage Stage.endpoint, Event.tryStage Stage.fetch])
      | StageResult.err _ =>
        match env.canvasReencode with
        | StageResult.ok n =>
          (Except.ok n,
           [Event.tryStage Stage.endpoint, Event.tryStage Stage.fetch,
            Event.tryStage Stage.canvas])
        | StageResult.err m =>
          (Except.error m,
           [Event.tryStage Stage.endpoint, Event.tryStage Stage.fetch,
            Event.tryStage Stage.canvas])

/-! ## Filename, extension and MIME type -/

/-- Extension detection of the share paths (CompanyDashboard.jsx lines
107-108): strip the query string, then take the segment after the last dot,
lowercased, defaulting to `jpg` when empty. -/
def shareExtension (url : String) : String :=
  let imageUrlPath := jsFirst (jsSplit url '?')
  let e := jsToLower (jsLast (jsSplit imageUrlPath '.'))
  if e = "" then "jpg" else e

/-- Extension detection of `handleDownload` (CompanyDashboard.jsx line 834):
`imageUrl.split('.').pop()?.toLowerCase().split('?')[0] || 'jpg'` — the
segment after the last dot is taken first, and only then is a `?`-suffix
stripped from it. -/
def downloadExtension (url : String) : String :=
  let e := jsFirst (jsSplit (jsToLower (jsLast (jsSplit url '.'))) '?')
  if e = "" then "jpg" else e

/-- The MIME-type selection of the share paths (CompanyDashboard.jsx line
109): extension `png` maps to `image/png`, anything else to `image/jpeg`. -/
def shareMimeType (extension : String) : String :=
  if extension = "png" then "image/png" else "image/jpeg"

/-- The filename computed by the share paths (CompanyDashboard.jsx lines
107-110): sanitized title, a dot, and the detected extension. -/
def shareFileName (flyer : Flyer) : String :=
  sanitizeTitle flyer.title ++ "." ++ shareExtension (jsOr flyer.imageUrl flyer.imagePath)

/-! ## Outcome of the handler -/

/-- The error names treated as user cancellation by the share-rejection
handler (CompanyDashboard.jsx line 147): both `AbortError` and
`NotAllowedError` close the modal silently. -/
def isCancelErrorName (name : String) : Bool :=
  name == "AbortError" || name == "NotAllowedError"

/-- The instructional alert text of the download fallback
(CompanyDashboard.jsx lines 188-195). -/
def fallbackInstructions : String :=
  "WhatsApp Sharing Instructions:\n\n1. Image has been downloaded to your device\n2. WhatsApp will now open\n3. Select a contact\n4. Attach the downloaded image\n5. Send!"

/-- The catch-all error-message mapping (CompanyDashboard.jsx lines 224-258)
restricted to plain `Error` objects, which is all that reaches the outer
catch in this handler (axios errors from the endpoint are swallowed by the
inner catch): an empty message becomes `Unknown error`, and messages that
look like CORS/network failures are rewritten to the guidance text. -/
def mapErrorMessage (msg : String) : String :=
  let m := if msg = "" then "Unknown error" else msg
  if jsIncludes m "Failed to fetch" || jsIncludes m "CORS" ||
     jsIncludes m "Canvas conversion failed" || jsIncludes m "Image failed to load" ||
     jsIncludes m "Network Error" then
    "Unable to access image. This may be due to:\n• Network connectivity issues\n• Image security restrictions (CORS)\n• Expired image access token\n\nTry using \x22More Options\x22 or the Download button instead."
  else m

/-- The outer catch (CompanyDashboard.jsx lines 215-266): map the error
message and alert unless the message mentions cancellation. -/
def mkFailed (msg : String) (evs : List Event) : ShareResult :=
  if jsIncludes (mapErrorMessage msg) "AbortError" ||
     jsIncludes (mapErrorMessage msg) "cancelled" then
    ⟨ShareOutcome.Failed (mapErrorMessage msg), evs, none⟩
  else
    ⟨ShareOutcome.Failed (mapErrorMessage msg), evs ++ [Event.alertError], none⟩

/-- The download fallback (CompanyDashboard.jsx lines 170-214): create an
object URL, click a synthetic link, revoke the URL, then show the
instructional alert once. -/
def downloadFallback (fileName : String) (evs : List Event) : ShareResult :=
  ⟨ShareOutcome.Downloaded,
   evs ++ [Event.createObjectURL, Event.clickDownload, Event.revokeObjectURL,
           Event.alertInstructions],
   some fileName⟩

/-- Steps 3-4 of the pipeline (CompanyDashboard.jsx lines 116-214): if the
capability check passes, invoke the native share; success is `Shared`, a
cancellation-class rejection is `Cancelled`, any other rejection falls
through to the download fallback, as does a failing capability check. -/
def shareOrFallback (env : ShareEnv) (fileName : String) (evs : List Event) : ShareResult :=
  if env.canShareFiles then
    match env.shareCall with
    | ShareCallResult.ok =>
      ⟨ShareOutcome.Shared, evs ++ [Event.invokeShare], some fileName⟩
    | ShareCallResult.err name =>
      if isCancelErrorName name then
        ⟨ShareOutcome.Cancelled, evs ++ [Event.invokeShare], some fileName⟩
      else
        downloadFallback fileName (evs ++ [Event.invokeShare])
  else
    downloadFallback fileName evs

/-- `ShareModal.handleWhatsAppShare` (CompanyDashboard.jsx lines 10-267) as a
pure function of the environment: acquire a blob through the fallback chain,
reject an empty blob, compute the filename, then share or fall back. -/
def handleWhatsAppShare (env : ShareEnv) (flyer : Flyer) : ShareResult :=
  match (acquireBlob env flyer).fst with
  | Except.error msg => mkFailed msg (acquireBlob env flyer).snd
  | Except.ok size =>
    if size = 0 then
      mkFailed "Received empty image file" (acquireBlob env flyer).snd
    else shareOrFallback env (shareFileName flyer) (acquireBlob env flyer).snd

/-! ## MonthNavigator (src/components/MonthNavigator.jsx) -/

/-- A year/month pair as held in the state of the dashboard.  JS numbers are
modelled as integers; the month is kept in 1..12 by the navigator. -/
structure YearMonth where
  year : Int
  month : Int
deriving DecidableEq, Repr

/-- `handlePrevious` (MonthNavigator.jsx lines 5-11). -/
def handlePrevious (ym : YearMonth) : YearMonth :=
  if ym.month = 1 then ⟨ym.year - 1, 12⟩ else ⟨ym.year, ym.month - 1⟩

/-- `handleNext` (MonthNavigator.jsx lines 13-19). -/
def handleNext (ym : YearMonth) : YearMonth :=
  if ym.month = 12 then ⟨ym.year + 1, 1⟩ else ⟨ym.year, ym.month + 1⟩

/-! ## Review Box add-customer form (CompanyDashboard.jsx lines 368-426) -/

/-- The regex test `/^\d{10,15}$/.test(phone)` (CompanyDashboard.jsx
line 382): the whole string is 10 to 15 decimal digits. -/
def phoneRegexTest (s : String) : Bool :=
  Nat.ble 10 s.data.length && Nat.ble s.data.length 15 && s.data.all Char.isDigit

/-- The state touched by `handleAddCustomer`: the customer list, the error
message (empty when none is set), and whether the `addCustomer` request was
issued. -/
structure AddCustomerState where
  customers : List String
  errorMsg : String
  requestSent : Bool
deriving DecidableEq, Repr

/-- `ReviewBoxTab.handleAddCustomer` (CompanyDashboard.jsx lines 368-426) on
the happy path of the request: trim both fields, reject when either is empty,
reject when the phone fails the digits test, otherwise issue the request and
prepend the customer returned by the server.  Both rejection branches return
before the request is made, leaving the customer list untouched. -/
def handleAddCustomer (customerName phoneNumber : String)
    (customers : List String) (serverCustomer : String) : AddCustomerState :=
  if jsTrim customerName = "" ∨ jsTrim phoneNumber = "" then
    ⟨customers, "Please fill in both Customer Name and Phone Number.", false⟩
  else if phoneRegexTest (jsTrim phoneNumber) = false then
    ⟨customers,
     "Phone number must be 10-15 digits with country code (e.g., 919076006262).",
     false⟩
  else
    ⟨serverCustomer :: customers, "", true⟩

/-! ## Helper lemmas -/

/-- The acquisition chain emits one of three stage traces. -/
theorem acquireBlob_events_shape (env : ShareEnv) (flyer : Flyer) :
    (acquireBlob env flyer).snd = [Event.tryStage Stage.endpoint] ∨
    (acquireBlob env flyer).snd =
      [Event.tryStage Stage.endpoint, Event.tryStage Stage.fetch] ∨
    (acquireBlob env flyer).snd =
      [Event.tryStage Stage.endpoint, Event.tryStage Stage.fetch,
       Event.tryStage Stage.canvas] := by
  unfold acquireBlob
  cases env.downloadEndpoint with
  | ok n => simp
  | err m =>
    by_cases h : jsOr flyer.imageUrl flyer.imagePath = ""
    · simp [h]
    · cases env.directFetch <;> cases env.canvasReencode <;> simp [h]

/-- Unfolding `handleWhatsAppShare` when acquisition throws. -/
theorem handleWhatsAppShare_of_error (env : ShareEnv) (flyer : Flyer) (msg : String)
    (h : (acquireBlob env flyer).fst = Except.error msg) :
    handleWhatsAppShare env flyer = mkFailed msg (acquireBlob env flyer).snd := by
  unfold handleWhatsAppShare
  simp only [h]

/-- Unfolding `handleWhatsAppShare` when acquisition completes with an empty
blob. -/
theorem handleWhatsAppShare_of_empty (env : ShareEnv) (flyer : Flyer)
    (h : (acquireBlob env flyer).fst = Except.ok 0) :
    handleWhatsAppShare env flyer =
      mkFailed "Received empty image file" (acquireBlob env flyer).snd := by
  unfold handleWhatsAppShare
  simp [h]

/-- Unfolding `handleWhatsAppShare` when acquisition completes with a
non-empty blob. -/
theorem handleWhatsAppShare_of_ok (env : ShareEnv) (flyer : Flyer) (n : Nat)
    (h : (acquireBlob env flyer).fst = Except.ok n) (hn : n ≠ 0) :
    handleWhatsAppShare env flyer =
      shareOrFallback env (shareFileName flyer) (acquireBlob env flyer).snd := by
  unfold handleWhatsAppShare
  simp only [h, if_neg hn]

/-- `mkFailed` on the empty-payload message: the message passes through the
rewriting table untouched and one error alert is emitted. -/
theorem mkFailed_empty_payload (evs : List Event) :
    mkFailed "Received empty image file" evs =
      ⟨ShareOutcome.Failed "Received empty image file",
       evs ++ [Event.alertError], none⟩ := by
  unfold mkFailed
  rw [show mapErrorMessage "Received empty image file" = "Received empty image file" from by decide]
  rw [if_neg (by decide)]

/-- Unfolding `shareOrFallback` when the native share resolves. -/
theorem shareOrFallback_share_ok (env : ShareEnv) (fileName : String)
    (evs : List Event) (hc : env.canShareFiles = true)
    (hs : env.shareCall = ShareCallResult.ok) :
    shareOrFallback env fileName evs =
      ⟨ShareOutcome.Shared, evs ++ [Event.invokeShare], some fileName⟩ := by
  unfold shareOrFallback
  simp [hc, hs]

/-- Unfolding `shareOrFallback` when the native share rejects with a
cancellation-class error. -/
theorem shareOrFallback_cancel (env : ShareEnv) (fileName : String)
    (evs : List Event) (name : String) (hc : env.canShareFiles = true)
    (hs : env.shareCall = ShareCallResult.err name)
    (hcn : isCancelErrorName name = true) :
    shareOrFallback env fileName evs =
      ⟨ShareOutcome.Cancelled, evs ++ [Event.invokeShare], some fileName⟩ := by
  unfold shareOrFallback
  simp [hc, hs, hcn]

/-- Unfolding `shareOrFallback` when the native share rejects with any other
error: fall through to the download fallback. -/
theorem shareOrFallback_fallthrough (env : ShareEnv) (fileName : String)
    (evs : List Event) (name : String) (hc : env.canShareFiles = true)
    (hs : env.shareCall = ShareCallResult.err name)
    (hcn : isCancelErrorName name = false) :
    shareOrFallback env fileName evs =
      downloadFallback fileName (evs ++ [Event.invokeShare]) := by
  unfold shareOrFallback
  simp [hc, hs, hcn]

/-- Unfolding `shareOrFallback` when the capability check fails. -/
theorem shareOrFallback_nocap (env : ShareEnv) (fileName : String)
    (evs : List Event) (hc : env.canShareFiles = false) :
    shareOrFallback env fileName evs = downloadFallback fileName evs := by
  unfold shareOrFallback
  simp [hc]

/-- The event trace of the handler extends the acquisition trace. -/
theorem handleWhatsAppShare_events_structure (env : ShareEnv) (flyer : Flyer) :
    ∃ rest, (handleWhatsAppShare env flyer).events =
      (acquireBlob env flyer).snd ++ rest := by
  cases hfst : (acquireBlob env flyer).fst with
  | error msg =>
    rw [handleWhatsAppShare_of_error env flyer msg hfst]
    unfold mkFailed
    split
    · exact ⟨[], by simp⟩
    · exact ⟨[Event.alertError], rfl⟩
  | ok n =>
    by_cases hn : n = 0
    · subst hn
      rw [handleWhatsAppShare_of_empty env flyer hfst, mkFailed_empty_payload]
      exact ⟨[Event.alertError], rfl⟩
    · rw [handleWhatsAppShare_of_ok env flyer n hfst hn]
      by_cases hc : env.canShareFiles = true
      · cases hs : env.shareCall with
        | ok =>
          rw [shareOrFallback_share_ok env _ _ hc hs]
          exact ⟨[Event.invokeShare], rfl⟩
        | err name =>
          by_cases hcn : isCancelErrorName name = true
          · rw [shareOrFallback_cancel env _ _ name hc hs hcn]
            exact ⟨[Event.invokeShare], rfl⟩
          · rw [shareOrFallback_fallthrough env _ _ name hc hs
                  (by simpa using hcn)]
            exact ⟨[Event.invokeShare, Event.createObjectURL, Event.clickDownload,
                    Event.revokeObjectURL, Event.alertInstructions],
                   by simp [downloadFallback]⟩
      · rw [shareOrFallback_nocap env _ _ (by simpa using hc)]
        exact ⟨[Event.createObjectURL, Event.clickDownload, Event.revokeObjectURL,
                Event.alertInstructions], rfl⟩

/-! ## Claim theorems -/

/-- C1 (counterexample): with a non-empty blob from the download endpoint and
a native share surface that rejects with `NotAllowedError`, the attempt ends
`Cancelled` with no alert — not `Downloaded` with one instructional alert as
claimed. -/
theorem notAllowedError_downloaded_counterexample :
    (handleWhatsAppShare
      ⟨StageResult.ok 123456, StageResult.err "x", StageResult.err "x", true,
       ShareCallResult.err "NotAllowedError"⟩
      ⟨"Flyer", "https://cdn.example.com/img.jpg", ""⟩).outcome =
        ShareOutcome.Cancelled ∧
    alertCount (handleWhatsAppShare
      ⟨StageResult.ok 123456, StageResult.err "x", StageResult.err "x", true,
       ShareCallResult.err "NotAllowedError"⟩
      ⟨"Flyer", "https://cdn.example.com/img.jpg", ""⟩).events = 0 ∧
    (handleWhatsAppShare
      ⟨StageResult.ok 123456, StageResult.err "x", StageResult.err "x", true,
       ShareCallResult.err "NotAllowedError"⟩
      ⟨"Flyer", "https://cdn.example.com/img.jpg", ""⟩).outcome ≠
        ShareOutcome.Downloaded := by
  refine ⟨rfl, rfl, by decide⟩

/-- C1 (amended): after a non-empty blob has been acquired, a
`NotAllowedError` rejection of the native share is handled exactly like user
cancellation: outcome `Cancelled`, no alert, no download fallback. -/
theorem handleWhatsAppShare_notAllowedError_cancelled (env : ShareEnv)
    (flyer : Flyer) (n : Nat)
    (hacq : (acquireBlob env flyer).fst = Except.ok n) (hn : n ≠ 0)
    (hcan : env.canShareFiles = true)
    (hshare : env.shareCall = ShareCallResult.err "NotAllowedError") :
    (handleWhatsAppShare env flyer).outcome = ShareOutcome.Cancelled ∧
    alertCount (handleWhatsAppShare env flyer).events = 0 ∧
    Event.clickDownload ∉ (handleWhatsAppShare env flyer).events := by
  rw [handleWhatsAppShare_of_ok env flyer n hacq hn,
      shareOrFallback_cancel env _ _ "NotAllowedError" hcan hshare (by decide)]
  refine ⟨rfl, ?_, ?_⟩ <;>
    rcases acquireBlob_events_shape env flyer with h | h | h <;> rw [h] <;>
    simp [alertCount, isAlertEvent]

/-- C1 witness. -/
theorem handleWhatsAppShare_notAllowedError_cancelled_witness :
    (handleWhatsAppShare
      ⟨StageResult.ok 77, StageResult.err "x", StageResult.err "y", true,
       ShareCallResult.err "NotAllowedError"⟩ ⟨"T", "a.jpg", ""⟩).outcome =
      ShareOutcome.Cancelled :=
  (handleWhatsAppShare_notAllowedError_cancelled
    ⟨StageResult.ok 77, StageResult.err "x", StageResult.err "y", true,
     ShareCallResult.err "NotAllowedError"⟩ ⟨"T", "a.jpg", ""⟩ 77 rfl
    (by decide) rfl rfl).1

/-- C2 (counterexample): when the download endpoint completes with an empty
blob while the direct fetch would return a non-empty one, the resolver does
not move on to the next strategy — it surfaces `Failed` at once. -/
theorem emptyBlob_no_fallback_counterexample :
    (handleWhatsAppShare
      ⟨StageResult.ok 0, StageResult.ok 50, StageResult.ok 50, true,
       ShareCallResult.ok⟩
      ⟨"Flyer", "https://cdn.example.com/img.jpg", ""⟩).outcome =
        ShareOutcome.Failed "Received empty image file" ∧
    Event.tryStage Stage.fetch ∉ (handleWhatsAppShare
      ⟨StageResult.ok 0, StageResult.ok 50, StageResult.ok 50, true,
       ShareCallResult.ok⟩
      ⟨"Flyer", "https://cdn.example.com/img.jpg", ""⟩).events := by
  refine ⟨rfl, by decide⟩

/-- C2 (amended): an exception at an acquisition stage is swallowed and
triggers the next fallback strategy, but an empty blob is only detected after
the chain completes — the attempt then surfaces `Failed` with the
empty-payload message and one error alert, with no further strategy and no
share invocation. -/
theorem handleWhatsAppShare_emptyBlob_failed (env : ShareEnv) (flyer : Flyer) :
    ((acquireBlob env flyer).fst = Except.ok 0 →
      (handleWhatsAppShare env flyer).outcome =
        ShareOutcome.Failed "Received empty image file" ∧
      alertCount (handleWhatsAppShare env flyer).events = 1 ∧
      Event.invokeShare ∉ (handleWhatsAppShare env flyer).events) ∧
    (∀ m, env.downloadEndpoint = StageResult.err m →
      jsOr flyer.imageUrl flyer.imagePath ≠ "" →
      Event.tryStage Stage.fetch ∈ (handleWhatsAppShare env flyer).events) := by
  constructor
  · intro h
    rw [handleWhatsAppShare_of_empty env flyer h, mkFailed_empty_payload]
    refine ⟨rfl, ?_, ?_⟩ <;>
      rcases acquireBlob_events_shape env flyer with hs | hs | hs <;> rw [hs] <;>
      simp [alertCount, isAlertEvent]
  · intro m hm hurl
    have hfetch : Event.tryStage Stage.fetch ∈ (acquireBlob env flyer).snd := by
      unfold acquireBlob
      simp only [hm]
      rw [if_neg hurl]
      cases env.directFetch <;> cases env.canvasReencode <;> simp
    obtain ⟨rest, hev⟩ := handleWhatsAppShare_events_structure env flyer
    rw [hev]
    exact List.mem_append_left _ hfetch

/-- C2 witness. -/
theorem handleWhatsAppShare_emptyBlob_failed_witness :
    (handleWhatsAppShare
      ⟨StageResult.err "404", StageResult.ok 0, StageResult.ok 50, true,
       ShareCallResult.ok⟩ ⟨"T", "a.jpg", ""⟩).outcome =
      ShareOutcome.Failed "Received empty image file" ∧
    Event.tryStage Stage.fetch ∈ (handleWhatsAppShare
      ⟨StageResult.err "404", StageResult.ok 0, StageResult.ok 50, true,
       ShareCallResult.ok⟩ ⟨"T", "a.jpg", ""⟩).events :=
  ⟨((handleWhatsAppShare_emptyBlob_failed
      ⟨StageResult.err "404", StageResult.ok 0, StageResult.ok 50, true,
       ShareCallResult.ok⟩ ⟨"T", "a.jpg", ""⟩).1 rfl).1,
   (handleWhatsAppShare_emptyBlob_failed
      ⟨StageResult.err "404", StageResult.ok 0, StageResult.ok 50, true,
       ShareCallResult.ok⟩ ⟨"T", "a.jpg", ""⟩).2 "404" rfl (by decide)⟩

/-- C3 (counterexample): for the reference with title `Summer Sale!!` and a
working endpoint plus capable share surface, the outcome is `Shared` but the
computed filename keeps the space: it is `Summer Sale__.jpg`, not
`Summer_Sale__.jpg`. -/
theorem summerSale_filename_counterexample :
    (handleWhatsAppShare
      ⟨StageResult.ok 122880, StageResult.err "network", StageResult.err "network",
       true, ShareCallResult.ok⟩ ⟨"Summer Sale!!", "", ""⟩).outcome =
        ShareOutcome.Shared ∧
    (handleWhatsAppShare
      ⟨StageResult.ok 122880, StageResult.err "network", StageResult.err "network",
       true, ShareCallResult.ok⟩ ⟨"Summer Sale!!", "", ""⟩).fileName =
        some "Summer Sale__.jpg" ∧
    (handleWhatsAppShare
      ⟨StageResult.ok 122880, StageResult.err "network", StageResult.err "network",
       true, ShareCallResult.ok⟩ ⟨"Summer Sale!!", "", ""⟩).fileName ≠
        some "Summer_Sale__.jpg" := by
  refine ⟨rfl, rfl, by decide⟩

/-- C3 (amended): same scenario, with the filename the code actually
computes: the sanitizer keeps whitespace, so the title `Summer Sale!!`
yields `Summer Sale__.jpg` and the outcome is `Shared`. -/
theorem summerSale_share_resolves :
    (handleWhatsAppShare
      ⟨StageResult.ok 122880, StageResult.err "network", StageResult.err "network",
       true, ShareCallResult.ok⟩ ⟨"Summer Sale!!", "", ""⟩).outcome =
        ShareOutcome.Shared ∧
    shareFileName ⟨"Summer Sale!!", "", ""⟩ = "Summer Sale__.jpg" :=
  ⟨rfl, rfl⟩

/-- C4: after a non-empty blob has been acquired, an `AbortError` rejection
of the native share yields `Cancelled`: no alert, no download fallback, and
in particular not `Failed`. -/
theorem handleWhatsAppShare_abortError_cancelled (env : ShareEnv)
    (flyer : Flyer) (n : Nat)
    (hacq : (acquireBlob env flyer).fst = Except.ok n) (hn : n ≠ 0)
    (hcan : env.canShareFiles = true)
    (hshare : env.shareCall = ShareCallResult.err "AbortError") :
    (handleWhatsAppShare env flyer).outcome = ShareOutcome.Cancelled ∧
    alertCount (handleWhatsAppShare env flyer).events = 0 ∧
    Event.clickDownload ∉ (handleWhatsAppShare env flyer).events ∧
    Event.createObjectURL ∉ (handleWhatsAppShare env flyer).events := by
  rw [handleWhatsAppShare_of_ok env flyer n hacq hn,
      shareOrFallback_cancel env _ _ "AbortError" hcan hshare (by decide)]
  refine ⟨rfl, ?_, ?_, ?_⟩ <;>
    rcases acquireBlob_events_shape env flyer with h | h | h <;> rw [h] <;>
    simp [alertCount, isAlertEvent]

/-- C4 witness. -/
theorem handleWhatsAppShare_abortError_cancelled_witness :
    (handleWhatsAppShare
      ⟨StageResult.ok 10, StageResult.err "x", StageResult.err "y", true,
       ShareCallResult.err "AbortError"⟩ ⟨"T", "a.jpg", ""⟩).outcome =
      ShareOutcome.Cancelled :=
  (handleWhatsAppShare_abortError_cancelled
    ⟨StageResult.ok 10, StageResult.err "x", StageResult.err "y", true,
     ShareCallResult.err "AbortError"⟩ ⟨"T", "a.jpg", ""⟩ 10 rfl
    (by decide) rfl rfl).1

/-- The attempted-stage trace as a function of which strategies complete. -/
theorem acquireBlob_snd_char (env : ShareEnv) (flyer : Flyer)
    (hurl : jsOr flyer.imageUrl flyer.imagePath ≠ "") :
    (acquireBlob env flyer).snd =
      if env.downloadEndpoint.isOk = true then [Event.tryStage Stage.endpoint]
      else if env.directFetch.isOk = true then
        [Event.tryStage Stage.endpoint, Event.tryStage Stage.fetch]
      else
        [Event.tryStage Stage.endpoint, Event.tryStage Stage.fetch,
         Event.tryStage Stage.canvas] := by
  unfold acquireBlob
  cases env.downloadEndpoint <;> cases env.directFetch <;>
    cases env.canvasReencode <;> simp [StageResult.isOk, hurl]

/-- C5: when an image URL is available for the fallback strategies, the
acquisition chain tries the strategies in the fixed order endpoint, direct
fetch, canvas; each strategy is tried at most once, and the chain stops at
the first strategy that completes with a blob. -/
theorem acquireBlob_strategy_order (env : ShareEnv) (flyer : Flyer)
    (hurl : jsOr flyer.imageUrl flyer.imagePath ≠ "") :
    (∀ s : Stage,
      ((acquireBlob env flyer).snd).count (Event.tryStage s) ≤ 1) ∧
    (env.downloadEndpoint.isOk = true →
      (acquireBlob env flyer).snd = [Event.tryStage Stage.endpoint]) ∧
    (env.downloadEndpoint.isOk = false → env.directFetch.isOk = true →
      (acquireBlob env flyer).snd =
        [Event.tryStage Stage.endpoint, Event.tryStage Stage.fetch]) ∧
    (env.downloadEndpoint.isOk = false → env.directFetch.isOk = false →
      (acquireBlob env flyer).snd =
        [Event.tryStage Stage.endpoint, Event.tryStage Stage.fetch,
         Event.tryStage Stage.canvas]) := by
  refine ⟨fun s => ?_, fun h1 => ?_, fun h1 h2 => ?_, fun h1 h2 => ?_⟩
  · rw [acquireBlob_snd_char env flyer hurl]
    by_cases h1 : env.downloadEndpoint.isOk = true <;>
      by_cases h2 : env.directFetch.isOk = true <;>
      simp [h1, h2] <;> cases s <;> simp
  · rw [acquireBlob_snd_char env flyer hurl, if_pos h1]
  · rw [acquireBlob_snd_char env flyer hurl, if_neg (by simp [h1]), if_pos h2]
  · rw [acquireBlob_snd_char env flyer hurl, if_neg (by simp [h1]),
        if_neg (by simp [h2])]

/-- C5 witness. -/
theorem acquireBlob_strategy_order_witness :
    (acquireBlob
      ⟨StageResult.err "404", StageResult.ok 50, StageResult.ok 50, true,
       ShareCallResult.ok⟩ ⟨"F", "a.jpg", ""⟩).snd =
      [Event.tryStage Stage.endpoint, Event.tryStage Stage.fetch] :=
  (acquireBlob_strategy_order
    ⟨StageResult.err "404", StageResult.ok 50, StageResult.ok 50, true,
     ShareCallResult.ok⟩ ⟨"F", "a.jpg", ""⟩ (by decide)).2.2.1 rfl rfl

/-- C8: in every share attempt, either no object URL is created, or the
event trace ends with the fallback block in which the synthetic download
click is immediately followed by revocation of the URL — the URL never
outlives the handler invocation. -/
theorem objectURL_released_within_attempt (env : ShareEnv) (flyer : Flyer) :
    (∃ pre, (handleWhatsAppShare env flyer).events =
      pre ++ [Event.createObjectURL, Event.clickDownload,
              Event.revokeObjectURL, Event.alertInstructions]) ∨
    Event.createObjectURL ∉ (handleWhatsAppShare env flyer).events := by
  have hnc : Event.createObjectURL ∉ (acquireBlob env flyer).snd := by
    rcases acquireBlob_events_shape env flyer with h | h | h <;> rw [h] <;> decide
  cases hfst : (acquireBlob env flyer).fst with
  | error msg =>
    right
    rw [handleWhatsAppShare_of_error env flyer msg hfst]
    unfold mkFailed
    split
    · simpa using hnc
    · simp [hnc]
  | ok n =>
    by_cases hn : n = 0
    · subst hn
      right
      rw [handleWhatsAppShare_of_empty env flyer hfst, mkFailed_empty_payload]
      simp [hnc]
    · rw [handleWhatsAppShare_of_ok env flyer n hfst hn]
      by_cases hc : env.canShareFiles = true
      · cases hs : env.shareCall with
        | ok =>
          right
          rw [shareOrFallback_share_ok env _ _ hc hs]
          simp [hnc]
        | err name =>
          by_cases hcn : isCancelErrorName name = true
          · right
            rw [shareOrFallback_cancel env _ _ name hc hs hcn]
            simp [hnc]
          · left
            rw [shareOrFallback_fallthrough env _ _ name hc hs
                  (by simpa using hcn)]
            exact ⟨(acquireBlob env flyer).snd ++ [Event.invokeShare],
                   by simp [downloadFallback]⟩
      · left
        rw [shareOrFallback_nocap env _ _ (by simpa using hc)]
        exact ⟨(acquireBlob env flyer).snd, rfl⟩

/-- C8 witness. -/
theorem objectURL_released_within_attempt_witness :
    (∃ pre, (handleWhatsAppShare
      ⟨StageResult.ok 10, StageResult.err "x", StageResult.err "y", false,
       ShareCallResult.ok⟩ ⟨"T", "a.jpg", ""⟩).events =
      pre ++ [Event.createObjectURL, Event.clickDownload,
              Event.revokeObjectURL, Event.alertInstructions]) ∨
    Event.createObjectURL ∉ (handleWhatsAppShare
      ⟨StageResult.ok 10, StageResult.err "x", StageResult.err "y", false,
       ShareCallResult.ok⟩ ⟨"T", "a.jpg", ""⟩).events :=
  objectURL_released_within_attempt
    ⟨StageResult.ok 10, StageResult.err "x", StageResult.err "y", false,
     ShareCallResult.ok⟩ ⟨"T", "a.jpg", ""⟩

/-- C6 (counterexample): the download path does not strip the query string
before extracting the extension — on a URL whose query contains a dot it
yields the query tail, while the share path yields `jpg`. -/
theorem downloadExtension_counterexample :
    downloadExtension "https://cdn.example.com/img.jpg?x=a.b" = "b" ∧
    shareExtension "https://cdn.example.com/img.jpg?x=a.b" = "jpg" ∧
    ("b" : String) ≠ "jpg" :=
  ⟨rfl, rfl, by decide⟩

/-- C6 (amended): the share path strips the query string before extracting
the extension and defaults to `jpg`; the download path extracts the last
dot-segment first and only then strips a `?` suffix, which agrees on the
example URL `img.jpg?sv=2020&sig=abc` (both yield `jpg`) but not in
general. -/
theorem extension_query_handling :
    shareExtension "https://cdn.example.com/img.jpg?sv=2020&sig=abc" = "jpg" ∧
    downloadExtension "https://cdn.example.com/img.jpg?sv=2020&sig=abc" = "jpg" ∧
    shareExtension "" = "jpg" ∧
    downloadExtension "" = "jpg" :=
  ⟨rfl, rfl, rfl, rfl⟩

/-- One sanitization step is idempotent on characters: allowed characters
are kept, everything else becomes `_`, and `_` is itself mapped to `_`. -/
theorem sanitizeChar_idem (c : Char) :
    sanitizeChar (sanitizeChar c) = sanitizeChar c := by
  unfold sanitizeChar
  by_cases h : matchesTitleClass c = true
  · simp [h]
  · simp [h]

/-- C7: the title sanitizer of the share filename is idempotent. -/
theorem sanitizeTitle_idempotent (t : String) :
    sanitizeTitle (sanitizeTitle t) = sanitizeTitle t := by
  unfold sanitizeTitle List.asString
  simp only [List.map_map]
  exact congrArg String.mk (List.map_congr_left fun a _ => sanitizeChar_idem a)

/-- C7 witness. -/
theorem sanitizeTitle_idempotent_witness :
    sanitizeTitle (sanitizeTitle "Summer Sale!!") = sanitizeTitle "Summer Sale!!" :=
  sanitizeTitle_idempotent "Summer Sale!!"

/-- C9: for any year and month in 1..12, Next then Previous returns to the
same pair; Previous from month 1 moves to December of the previous year,
Next from month 12 moves to January of the next year, and otherwise only
the month changes. -/
theorem monthNavigator_roundtrip (y m : Int) (h1 : 1 ≤ m) (h2 : m ≤ 12) :
    handlePrevious (handleNext ⟨y, m⟩) = ⟨y, m⟩ ∧
    (m = 1 → handlePrevious ⟨y, m⟩ = ⟨y - 1, 12⟩) ∧
    (m = 12 → handleNext ⟨y, m⟩ = ⟨y + 1, 1⟩) ∧
    (1 < m → handlePrevious ⟨y, m⟩ = ⟨y, m - 1⟩) ∧
    (m < 12 → handleNext ⟨y, m⟩ = ⟨y, m + 1⟩) := by
  refine ⟨?_, ?_, ?_, ?_, ?_⟩
  · by_cases h12 : m = 12
    · subst h12
      simp [handleNext, handlePrevious]
    · have hne : ¬(m + 1 = 1) := by omega
      simp [handleNext, handlePrevious, h12, hne]
  · intro hm
    subst hm
    simp [handlePrevious]
  · intro hm
    subst hm
    simp [handleNext]
  · intro hm
    have hne : ¬(m = 1) := by omega
    simp [handlePrevious, hne]
  · intro hm
    have hne : ¬(m = 12) := by omega
    simp [handleNext, hne]

/-- C9 witness. -/
theorem monthNavigator_roundtrip_witness :
    handlePrevious (handleNext ⟨2024, 5⟩) = (⟨2024, 5⟩ : YearMonth) :=
  (monthNavigator_roundtrip 2024 5 (by decide) (by decide)).1

/-- C10: the add-customer handler issues the request exactly when the
trimmed name is non-empty and the trimmed phone passes the 10-15-digit
test; otherwise no request is sent, an error message is set, and the
customer list is unchanged. -/
theorem handleAddCustomer_validation (name phone serverCustomer : String)
    (customers : List String) :
    ((handleAddCustomer name phone customers serverCustomer).requestSent = true ↔
      (jsTrim name ≠ "" ∧ phoneRegexTest (jsTrim phone) = true)) ∧
    ((handleAddCustomer name phone customers serverCustomer).requestSent = false →
      (handleAddCustomer name phone customers serverCustomer).customers =
        customers ∧
      (handleAddCustomer name phone customers serverCustomer).errorMsg ≠ "") := by
  unfold handleAddCustomer
  by_cases hemp : jsTrim name = "" ∨ jsTrim phone = ""
  · rw [if_pos hemp]
    constructor
    · constructor
      · intro h
        exact absurd h (by simp)
      · rintro ⟨hn, hp⟩
        rcases hemp with hemp | hemp
        · exact absurd hemp hn
        · rw [hemp] at hp
          exact absurd hp (by decide)
    · intro _
      exact ⟨rfl, by simp⟩
  · rw [if_neg hemp]
    push_neg at hemp
    by_cases htest : phoneRegexTest (jsTrim phone) = false
    · rw [if_pos htest]
      constructor
      · constructor
        · intro h
          exact absurd h (by simp)
        · rintro ⟨hn, hp⟩
          rw [htest] at hp
          exact absurd hp (by decide)
      · intro _
        exact ⟨rfl, by simp⟩
    · rw [if_neg htest]
      have htrue : phoneRegexTest (jsTrim phone) = true := by
        cases hb : phoneRegexTest (jsTrim phone)
        · exact absurd hb htest
        · rfl
      constructor
      · simp [hemp.1, htrue]
      · intro hfalse
        exact absurd hfalse (by simp)

/-- C10 witness. -/
theorem handleAddCustomer_validation_witness :
    (handleAddCustomer " John Doe " "919076006262" ["a"] "srv").requestSent = true ∧
    (handleAddCustomer "John Doe" "123" ["a"] "srv").customers = ["a"] :=
  ⟨(handleAddCustomer_validation " John Doe " "919076006262" "srv" ["a"]).1.mpr
     ⟨by decide, by decide⟩,
   ((handleAddCustomer_validation "John Doe" "123" "srv" ["a"]).2 rfl).1⟩
